import Mathlib

/-!
# newrelic-k8s-metrics-adapter: `internal/adapter/adapter.go`

A shallow embedding of `NewAdapter` and `adapter.initFlags`.

The two functions are configuration glue around third-party packages
(`pflag`, `klog`, `k8s.io/apiserver`, `sigs.k8s.io/custom-metrics-apiserver`,
`fmt`/`strconv`).  None of that code belongs to the repository, so every call
into it is a field of the structure `Env`; the embedding of the code of the
repository is written against an arbitrary `Env`.  Where a property depends on what a
library call does, the assumption made about the library is a named predicate
on `Env` and appears as a hypothesis of the theorem.

Go pointers are modelled by the value they point to, `nil` by `none`.  Every
call into a library is also appended to a call log, so that statements about
the order of the calls can be made.
-/

namespace NewRelicAdapter

/-! ## Constants of the package -/

/-- Name of the adapter (`const Name`). -/
def Name : String := "newrelic-k8s-metrics-adapter"

/-- DefaultSecurePort is a default port adapter will be listening on using HTTPS. -/
def DefaultSecurePort : Int := 6443

/-- Initial value of the package variable `version`; the linker may replace it
at build time, which is why the value in force is a field of `Env`. -/
def version : String := "dev"

/-! ## Data of the libraries that the source reads or writes -/

/-- The three `pflag.ErrorHandling` constants. -/
inductive ErrorHandling where
  | ContinueOnError
  | ExitOnError
  | PanicOnError
deriving DecidableEq

/-- What the source can observe of a `pflag.FlagSet`: the name and the error
handling it was created with, and the names of the flags defined in it. -/
structure FlagSet where
  name : String
  errorHandling : ErrorHandling
  formal : List String
deriving DecidableEq

/-- The call `pflag.NewFlagSet(name, errorHandling)`: a set with no flag defined. -/
def NewFlagSet (name : String) (errorHandling : ErrorHandling) : FlagSet :=
  { name := name, errorHandling := errorHandling, formal := [] }

/-- A standard-library `flag.FlagSet`, by the names of the flags defined in it;
the zero value `&flag.FlagSet{}` is the empty list. -/
abbrev GoFlagSet := List String

/-- The `Info` part of an OpenAPI configuration (`spec.Info`). -/
structure Info (X : Type) where
  Title : String
  Version : String
  other : X

/-- The OpenAPI configuration (`openapicommon.Config`); `other` stands for the
fields the source never touches. -/
structure Config (X : Type) where
  Info : Info X
  other : X

/-- The `SecureServing` part of the server options. -/
structure SecureServingOptions (X : Type) where
  BindPort : Int
  other : X

/-- The struct `server.CustomMetricsAdapterServerOptions`. -/
structure CustomMetricsAdapterServerOptions (X : Type) where
  SecureServing : SecureServingOptions X
  OpenAPIConfig : Option (Config X)
  other : X

/-- The struct `basecmd.AdapterBase`: the exported fields the source assigns,
and `other` for everything unexported (the bound providers among them). -/
structure AdapterBase (X : Type) where
  CustomMetricsAdapterServerOptions : Option (CustomMetricsAdapterServerOptions X)
  Name : String
  FlagSet : Option FlagSet
  OpenAPIConfig : Option (Config X)
  other : X

/-- The struct `adapter`, which embeds `basecmd.AdapterBase`. -/
structure adapter (X : Type) extends AdapterBase X

/-- Options holds the configuration for the adapter. -/
structure Options (P : Type) where
  Args : List String
  ExternalMetricsProvider : Option P

/-- Go error values as the source builds them: an error handed back by a
library, `fmt.Errorf` without `%w` (a plain message), and `fmt.Errorf` with one
`%w` (a message and the wrapped error). -/
inductive GoError (E : Type) where
  | lib (e : E)
  | errorString (s : String)
  | wrapError (msg : String) (err : GoError E)

/-- Everything outside `adapter.go` that `NewAdapter` depends on.
`P` is the type of external metrics providers, `E` the type of the errors the
flag parser returns, `X` the type of library state the source never inspects. -/
structure Env (P E X : Type) where
  /-- The value of the package variable `version` in the running binary. -/
  version : String
  /-- The zero value of the unexported part of `basecmd.AdapterBase`. -/
  zeroOther : X
  /-- The result of `genericapiserver.DefaultOpenAPIConfig(GetOpenAPIDefinitions, NewDefinitionNamer(Scheme))`. -/
  DefaultOpenAPIConfig : Config X
  /-- The result of `server.NewCustomMetricsAdapterServerOptions()`. -/
  NewCustomMetricsAdapterServerOptions : CustomMetricsAdapterServerOptions X
  /-- The call `klog.InitFlags(flagset)`: the set after klog registered its flags. -/
  klogInitFlags : GoFlagSet → GoFlagSet
  /-- The call `(*pflag.FlagSet).AddGoFlagSet`. -/
  AddGoFlagSet : FlagSet → GoFlagSet → FlagSet
  /-- The call `(*AdapterBase).Flags()`: the adapter afterwards and the flag set returned. -/
  Flags : AdapterBase X → AdapterBase X × FlagSet
  /-- The call `(*pflag.FlagSet).Parse(args)`: the adapter afterwards and the error returned. -/
  Parse : FlagSet → List String → AdapterBase X → AdapterBase X × Option E
  /-- The call `(*AdapterBase).WithExternalMetrics(p)`. -/
  WithExternalMetrics : AdapterBase X → P → AdapterBase X
  /-- The flag names that an argument list names, as the parser reads them. -/
  flagsIn : FlagSet → List String → List String
  /-- The names of the flags that `Flags()` installs. -/
  serverFlags : List String
  /-- The method `Error()` of an error returned by the parser. -/
  errorMessage : E → String
  /-- The function `strconv.Quote`, which the verb `%q` applies to a string. -/
  Quote : String → String

/-- One call from `adapter.go` into a library, with its arguments; a call of
`Parse` is logged with the error it returned as well. -/
inductive Call (P E X : Type) where
  | DefaultOpenAPIConfig
  | NewCustomMetricsAdapterServerOptions
  | NewFlagSet (name : String) (errorHandling : ErrorHandling)
  | klogInitFlags (flagset : GoFlagSet)
  | AddGoFlagSet (fs : FlagSet) (flagset : GoFlagSet)
  | Flags (a : AdapterBase X)
  | Parse (fs : FlagSet) (args : List String) (a : AdapterBase X) (err : Option E)
  | WithExternalMetrics (a : AdapterBase X) (p : P)

variable {P E X : Type}

/-- The method `Error()`. -/
def GoError.Error (env : Env P E X) : GoError E → String
  | .lib e => env.errorMessage e
  | .errorString s => s
  | .wrapError msg _ => msg

/-- The method `Unwrap()`, as `errors.Unwrap` calls it. -/
def GoError.Unwrap : GoError E → Option (GoError E)
  | .lib _ => none
  | .errorString _ => none
  | .wrapError _ err => some err

/-- The function `strings.Join`. -/
def stringsJoin (elems : List String) (sep : String) : String :=
  sep.intercalate elems

/-- The pair `(Adapter, error)` that `NewAdapter` returns. -/
structure Result (E X : Type) where
  adapter : Option (adapter X)
  err : Option (GoError E)

/-! ## The two functions of `adapter.go` -/

/-- The method `(a *adapter) initFlags(args []string) error`: the calls made,
the adapter afterwards and the error returned. -/
def initFlags (env : Env P E X) (a : adapter X) (args : List String) :
    List (Call P E X) × adapter X × Option (GoError E) :=
  -- a.FlagSet = pflag.NewFlagSet(Name, pflag.ContinueOnError)
  let fs0 := NewFlagSet Name ErrorHandling.ContinueOnError
  let a1 : adapter X := { a with FlagSet := some fs0 }
  -- klogFlagSet := &flag.FlagSet{}; klog.InitFlags(klogFlagSet)
  let klogFlagSet0 : GoFlagSet := []
  let klogFlagSet := env.klogInitFlags klogFlagSet0
  -- a.FlagSet.AddGoFlagSet(klogFlagSet)
  let fs1 := env.AddGoFlagSet fs0 klogFlagSet
  let a2 : adapter X := { a1 with FlagSet := some fs1 }
  -- a.Flags().Parse(args)
  let r := env.Flags a2.toAdapterBase
  let a3 : adapter X := { toAdapterBase := r.1 }
  let fs := r.2
  let q := env.Parse fs args a3.toAdapterBase
  let a4 : adapter X := { toAdapterBase := q.1 }
  let calls : List (Call P E X) :=
    [Call.NewFlagSet Name ErrorHandling.ContinueOnError,
     Call.klogInitFlags klogFlagSet0,
     Call.AddGoFlagSet fs0 klogFlagSet,
     Call.Flags a2.toAdapterBase,
     Call.Parse fs args a3.toAdapterBase q.2]
  match q.2 with
  | some err =>
    -- fmt.Errorf("parsing flags %q: %w", strings.Join(args, ","), err)
    (calls, a4,
      some (GoError.wrapError
        ("parsing flags " ++ env.Quote (stringsJoin args ",") ++ ": " ++ env.errorMessage err)
        (GoError.lib err)))
  | none => (calls, a4, none)

/-- The function `NewAdapter(options Options) (Adapter, error)`: the calls made
into the libraries, in order, and the pair returned. -/
def NewAdapter (env : Env P E X) (options : Options P) : List (Call P E X) × Result E X :=
  -- a := &adapter{}
  let a0 : adapter X :=
    { CustomMetricsAdapterServerOptions := none, Name := "", FlagSet := none,
      OpenAPIConfig := none, other := env.zeroOther }
  -- a.Name = Name
  let a1 : adapter X := { a0 with Name := Name }
  -- a.OpenAPIConfig = genericapiserver.DefaultOpenAPIConfig(...)
  let c0 := env.DefaultOpenAPIConfig
  -- a.OpenAPIConfig.Info.Title = a.Name
  let c1 : Config X := { c0 with Info := { c0.Info with Title := a1.Name } }
  -- a.OpenAPIConfig.Info.Version = version
  let c2 : Config X := { c1 with Info := { c1.Info with Version := env.version } }
  let a2 : adapter X := { a1 with OpenAPIConfig := some c2 }
  -- a.CustomMetricsAdapterServerOptions = server.NewCustomMetricsAdapterServerOptions()
  let o0 := env.NewCustomMetricsAdapterServerOptions
  -- a.CustomMetricsAdapterServerOptions.OpenAPIConfig = a.OpenAPIConfig
  let o1 : CustomMetricsAdapterServerOptions X := { o0 with OpenAPIConfig := a2.OpenAPIConfig }
  -- a.SecureServing.BindPort = DefaultSecurePort
  let o2 : CustomMetricsAdapterServerOptions X :=
    { o1 with SecureServing := { o1.SecureServing with BindPort := DefaultSecurePort } }
  let a3 : adapter X := { a2 with CustomMetricsAdapterServerOptions := some o2 }
  let calls0 : List (Call P E X) :=
    [Call.DefaultOpenAPIConfig, Call.NewCustomMetricsAdapterServerOptions]
  -- if err := a.initFlags(options.Args); err != nil
  let r := initFlags env a3 options.Args
  match r.2.2 with
  | some err =>
    -- return nil, fmt.Errorf("initiating flags: %w", err)
    (calls0 ++ r.1,
      { adapter := none,
        err := some (GoError.wrapError ("initiating flags: " ++ err.Error env) err) })
  | none =>
    -- if options.ExternalMetricsProvider == nil
    match options.ExternalMetricsProvider with
    | none =>
      -- return nil, fmt.Errorf("external metrics provider must be configured")
      (calls0 ++ r.1,
        { adapter := none,
          err := some (GoError.errorString "external metrics provider must be configured") })
    | some p =>
      -- a.WithExternalMetrics(options.ExternalMetricsProvider); return a, nil
      let a4 : adapter X := { toAdapterBase := env.WithExternalMetrics r.2.1.toAdapterBase p }
      (calls0 ++ r.1 ++ [Call.WithExternalMetrics r.2.1.toAdapterBase p],
        { adapter := some a4, err := none })


/-! ## Reading the call log -/

/-- The calls of `Parse` in a log, in order: flag set, arguments, adapter at the
time of the call, error returned. -/
def parseCalls : List (Call P E X) → List (FlagSet × List String × AdapterBase X × Option E)
  | [] => []
  | Call.Parse fs args a err :: rest => (fs, args, a, err) :: parseCalls rest
  | _ :: rest => parseCalls rest

/-- What the calls of `Parse` in a log returned: `none` is the `nil` error. -/
def parseResults (log : List (Call P E X)) : List (Option E) :=
  (parseCalls log).map (fun c => c.2.2.2)

/-- The providers handed to `WithExternalMetrics` in a log, in order. -/
def boundProviders : List (Call P E X) → List P
  | [] => []
  | Call.WithExternalMetrics _ p :: rest => p :: boundProviders rest
  | _ :: rest => boundProviders rest

/-! ## The text of arguments -/

/-- The number that a list of decimal digits writes. -/
def decimalValue (digits : List Char) : Int :=
  digits.foldl (fun n c => 10 * n + ((c.toNat : Int) - 48)) 0

/-- The number written by `value` when `value` is a plain decimal numeral: at
least one and at most 18 digits, no sign, and no leading zero. -/
def parseDecimal (value : String) : Option Int :=
  if value.data ≠ [] ∧ value.data.all Char.isDigit = true ∧
      (value.data.head? ≠ some '0' ∨ value.data.length = 1) ∧ value.data.length ≤ 18 then
    some (decimalValue value.data)
  else none

/-- The argument `--name=value`. -/
def longArg (name value : String) : String :=
  "--" ++ name ++ "=" ++ value

/-! ## A small concrete environment

A toy framework used to run the embedding on concrete inputs: klog registers two
flags, `Flags()` installs `secure-port`, an argument has the form `--name=value`,
and `WithExternalMetrics` stores the provider in the unexported state. -/

/-- The flag name of an argument `--name=value`. -/
def demoFlagName (arg : String) : String :=
  String.mk ((arg.data.dropWhile (fun c => c = '-')).takeWhile (fun c => c ≠ '='))

/-- The value of an argument `--name=value`. -/
def demoFlagValue (arg : String) : List Char :=
  (arg.data.dropWhile (fun c => c ≠ '=')).drop 1

/-- The decimal number written by a list of digits. -/
def demoNumber (digits : List Char) : Int :=
  decimalValue digits

/-- The toy parser: an argument naming an undefined flag stops the parse with an
error, `--secure-port=n` writes `n` to `SecureServing.BindPort`, every other
defined flag is accepted and changes nothing. -/
def demoParse (fs : FlagSet) : List String → AdapterBase (Option Nat) →
    AdapterBase (Option Nat) × Option String
  | [], a => (a, none)
  | arg :: rest, a =>
    if demoFlagName arg ∈ fs.formal then
      if demoFlagName arg = "secure-port" then
        demoParse fs rest
          { a with CustomMetricsAdapterServerOptions :=
              a.CustomMetricsAdapterServerOptions.map (fun o =>
                { o with SecureServing :=
                    { o.SecureServing with BindPort := demoNumber (demoFlagValue arg) } }) }
      else demoParse fs rest a
    else (a, some ("unknown flag: --" ++ demoFlagName arg))

/-- The toy environment. -/
def demoEnv : Env Nat String (Option Nat) where
  version := version
  zeroOther := none
  DefaultOpenAPIConfig :=
    { Info := { Title := "Generic API Server", Version := "unversioned", other := none },
      other := none }
  NewCustomMetricsAdapterServerOptions :=
    { SecureServing := { BindPort := 443, other := none }, OpenAPIConfig := none, other := none }
  klogInitFlags := fun flagset => flagset ++ ["v", "logtostderr"]
  AddGoFlagSet := fun fs flagset =>
    { fs with formal := fs.formal ++ flagset.filter (fun n => n ∉ fs.formal) }
  Flags := fun a =>
    match a.FlagSet with
    | some fs =>
      ({ a with FlagSet := some { fs with formal := fs.formal ++ ["secure-port"] } },
        { fs with formal := fs.formal ++ ["secure-port"] })
    | none => (a, NewFlagSet "" ErrorHandling.ExitOnError)
  Parse := demoParse
  WithExternalMetrics := fun a p => { a with other := some p }
  flagsIn := fun _ args => args.map demoFlagName
  serverFlags := ["secure-port"]
  errorMessage := fun e => e
  Quote := fun s => "\"" ++ s ++ "\""

/-! ## Assumptions on the libraries

The source does not show what `Flags()`, `Parse` and `WithExternalMetrics` do to
the adapter.  The predicates below say what is assumed of them where a property
of `NewAdapter` depends on it. -/

/-- The port the adapter would bind: `a.SecureServing.BindPort`. -/
def AdapterBase.BindPort (a : AdapterBase X) : Option Int :=
  a.CustomMetricsAdapterServerOptions.map (fun o => o.SecureServing.BindPort)

/-- The OpenAPI configuration held by the server options of the adapter. -/
def AdapterBase.serverOpenAPIConfig (a : AdapterBase X) : Option (Config X) :=
  a.CustomMetricsAdapterServerOptions.bind (fun o => o.OpenAPIConfig)

/-- A library call `f` leaves the name of the adapter and both references to the
OpenAPI configuration as they were. -/
def KeepsStamp (f : AdapterBase X → AdapterBase X) : Prop :=
  ∀ a, (f a).Name = a.Name ∧ (f a).OpenAPIConfig = a.OpenAPIConfig ∧
    (f a).serverOpenAPIConfig = a.serverOpenAPIConfig

/-- Assumption for the OpenAPI stamping: none of `Flags()`, `Parse` and
`WithExternalMetrics` writes the name of the adapter or its OpenAPI configuration. -/
def StampContract (env : Env P E X) : Prop :=
  KeepsStamp (fun a => (env.Flags a).1) ∧
  (∀ fs args, KeepsStamp (fun a => (env.Parse fs args a).1)) ∧
  (∀ p, KeepsStamp (fun a => env.WithExternalMetrics a p))

/-- The text `n` occurs in the argument `arg`. -/
def occursIn (n arg : String) : Prop :=
  ∃ pre post : List Char, arg.data = pre ++ n.data ++ post

/-- A flag name that can be read back from `--name=value`: not empty, without
`=`, and not starting with `-`. -/
def flagNameOK (name : String) : Prop :=
  name ≠ "" ∧ '=' ∉ name.data ∧ name.data.head? ≠ some '-'

/-- The argument `arg` is `--name` or `--name=value`. -/
def namesLongFlag (arg name : String) : Prop :=
  arg = "--" ++ name ∨ ∃ value : String, arg = "--" ++ name ++ "=" ++ value

/-- The argument `arg` is `--name=value` for some flag name and value. -/
def isLongAssignment (arg : String) : Prop :=
  ∃ name value : String, flagNameOK name ∧ arg = longArg name value

/-- The argument `arg` sets the klog verbosity: `-v=n` or `--v=n`, with `n` a
decimal number that fits the 32-bit level of klog. -/
def isVerbosityArg (arg : String) : Prop :=
  ∃ level : Nat, level < 2 ^ 31 ∧
    (arg = "-v=" ++ toString level ∨ arg = "--v=" ++ toString level)

/-- The argument `arg` carries its value with it (`--name=value`, `-v=n` or
`--v=n`), so that the parser reads it without looking at the next argument. -/
def isSelfContained (arg : String) : Prop :=
  isLongAssignment arg ∨ isVerbosityArg arg

/-- Assumption for the secure port: `Flags()` and `WithExternalMetrics` do not
write `SecureServing.BindPort`, `Parse` writes it only when the arguments name
the flag `secure-port`, a flag that the arguments name occurs in one of them
(so that no argument, or arguments without the text `secure-port`, do not name
that flag), and when `Parse` returns nil on arguments that carry their values
and end with `--secure-port=n`, the port it leaves is `n`. -/
def PortContract (env : Env P E X) : Prop :=
  (∀ a, (env.Flags a).1.BindPort = a.BindPort) ∧
  (∀ a p, (env.WithExternalMetrics a p).BindPort = a.BindPort) ∧
  (∀ fs args a, "secure-port" ∉ env.flagsIn fs args →
    (env.Parse fs args a).1.BindPort = a.BindPort) ∧
  (∀ fs args n, n ∈ env.flagsIn fs args → ∃ arg ∈ args, occursIn n arg) ∧
  (∀ fs pre value n a, (∀ x ∈ pre, isSelfContained x) → parseDecimal value = some n →
    a.BindPort ≠ none →
    (env.Parse fs (pre ++ [longArg "secure-port" value]) a).2 = none →
    (env.Parse fs (pre ++ [longArg "secure-port" value]) a).1.BindPort = some n)

/-- Assumption for the flag set: `AddGoFlagSet` and `Flags()` add flags to the set
they are given and keep its name and error handling, the set `Flags()` returns
is the set of the adapter with `serverFlags` added, and `Parse` on a set with
`ContinueOnError` returns an error when the arguments name a flag that the set
does not define.  Further: klog registers the flag `v`; an argument `--name` or
`--name=value` that follows only arguments carrying their values names the
flag `name`; and `Parse` on a set with `ContinueOnError` that defines `v`
returns nil when every argument sets the verbosity. -/
def FlagContract (env : Env P E X) : Prop :=
  (∀ fs flagset, (env.AddGoFlagSet fs flagset).name = fs.name ∧
    (env.AddGoFlagSet fs flagset).errorHandling = fs.errorHandling ∧
    ∀ n, n ∈ (env.AddGoFlagSet fs flagset).formal ↔ n ∈ fs.formal ∨ n ∈ flagset) ∧
  (∀ a fs, a.FlagSet = some fs → (env.Flags a).2.name = fs.name ∧
    (env.Flags a).2.errorHandling = fs.errorHandling ∧
    ∀ n, n ∈ (env.Flags a).2.formal ↔ n ∈ fs.formal ∨ n ∈ env.serverFlags) ∧
  (∀ fs args a n, fs.errorHandling = ErrorHandling.ContinueOnError →
    n ∈ env.flagsIn fs args → n ∉ fs.formal → (env.Parse fs args a).2 ≠ none) ∧
  (∀ flagset, "v" ∈ env.klogInitFlags flagset) ∧
  (∀ fs pre arg post name, (∀ x ∈ pre, isSelfContained x) → flagNameOK name →
    namesLongFlag arg name → name ∈ env.flagsIn fs (pre ++ arg :: post)) ∧
  (∀ fs args a, fs.errorHandling = ErrorHandling.ContinueOnError → "v" ∈ fs.formal →
    (∀ arg ∈ args, isVerbosityArg arg) → (env.Parse fs args a).2 = none)

/-- The adapter as `NewAdapter` has set it up when `initFlags` calls `Flags()`
(used to state the run of `NewAdapter`; see `NewAdapter_run`). -/
def configured (env : Env P E X) : AdapterBase X :=
  { CustomMetricsAdapterServerOptions :=
      some { SecureServing :=
               { BindPort := DefaultSecurePort,
                 other := env.NewCustomMetricsAdapterServerOptions.SecureServing.other },
             OpenAPIConfig :=
               some { Info := { Title := Name, Version := env.version,
                                other := env.DefaultOpenAPIConfig.Info.other },
                      other := env.DefaultOpenAPIConfig.other },
             other := env.NewCustomMetricsAdapterServerOptions.other },
    Name := Name,
    FlagSet := some (env.AddGoFlagSet (NewFlagSet Name ErrorHandling.ContinueOnError)
      (env.klogInitFlags [])),
    OpenAPIConfig :=
      some { Info := { Title := Name, Version := env.version,
                       other := env.DefaultOpenAPIConfig.Info.other },
             other := env.DefaultOpenAPIConfig.other },
    other := env.zeroOther }

/-! ## Theorems -/

/-- The run of `NewAdapter` written out: with `a` the adapter on which `Flags()`
is called, the log up to and including `Parse`, and the three ways the function
returns. -/
theorem NewAdapter_run (env : Env P E X) (options : Options P) :
    ∃ (a : AdapterBase X) (pre : List (Call P E X)),
      a = configured env ∧
      pre = [Call.DefaultOpenAPIConfig, Call.NewCustomMetricsAdapterServerOptions,
        Call.NewFlagSet Name ErrorHandling.ContinueOnError,
        Call.klogInitFlags [],
        Call.AddGoFlagSet (NewFlagSet Name ErrorHandling.ContinueOnError) (env.klogInitFlags []),
        Call.Flags a,
        Call.Parse (env.Flags a).2 options.Args (env.Flags a).1
          (env.Parse (env.Flags a).2 options.Args (env.Flags a).1).2] ∧
      NewAdapter env options =
        (match (env.Parse (env.Flags a).2 options.Args (env.Flags a).1).2,
            options.ExternalMetricsProvider with
         | some e, _ =>
           (pre, { adapter := none,
                   err := some (GoError.wrapError
                     ("initiating flags: " ++ ("parsing flags " ++
                       env.Quote (stringsJoin options.Args ",") ++ ": " ++ env.errorMessage e))
                     (GoError.wrapError
                       ("parsing flags " ++ env.Quote (stringsJoin options.Args ",") ++ ": " ++
                         env.errorMessage e)
                       (GoError.lib e))) })
         | none, none =>
           (pre, { adapter := none,
                   err := some (GoError.errorString
                     "external metrics provider must be configured") })
         | none, some p =>
           (pre ++ [Call.WithExternalMetrics
                      (env.Parse (env.Flags a).2 options.Args (env.Flags a).1).1 p],
            { adapter := some { toAdapterBase := (env.WithExternalMetrics
                (env.Parse (env.Flags a).2 options.Args (env.Flags a).1).1 p) },
              err := none })) := by
  refine ⟨configured env, _, rfl, rfl, ?_⟩
  simp only [NewAdapter, initFlags, configured]
  split
  · rename_i err herr
    split at herr
    · rename_i e he
      cases herr
      simp only [he]
      rfl
    · cases herr
  · rename_i herr
    split at herr
    · cases herr
    · rename_i he
      split
      · rename_i hp
        simp only [he, hp]
        rfl
      · rename_i p hp
        simp only [he, hp]
        rfl

/-- The toy parser only ever writes `SecureServing.BindPort`. -/
theorem demoParse_keeps (fs : FlagSet) (args : List String) (a : AdapterBase (Option Nat)) :
    (demoParse fs args a).1.Name = a.Name ∧
      (demoParse fs args a).1.OpenAPIConfig = a.OpenAPIConfig ∧
      (demoParse fs args a).1.serverOpenAPIConfig = a.serverOpenAPIConfig := by
  induction args generalizing a with
  | nil => simp [demoParse]
  | cons arg rest ih =>
    simp only [demoParse]
    split
    · split
      · obtain ⟨h1, h2, h3⟩ := ih
          { a with CustomMetricsAdapterServerOptions :=
              a.CustomMetricsAdapterServerOptions.map (fun o =>
                { o with SecureServing :=
                    { o.SecureServing with BindPort := demoNumber (demoFlagValue arg) } }) }
        refine ⟨h1, h2, ?_⟩
        rw [h3]
        cases h : a.CustomMetricsAdapterServerOptions <;>
          simp [AdapterBase.serverOpenAPIConfig, h]
      · exact ih a
    · simp

/-- The toy parser leaves the port alone when no argument names `secure-port`. -/
theorem demoParse_port (fs : FlagSet) (args : List String) (a : AdapterBase (Option Nat))
    (h : "secure-port" ∉ args.map demoFlagName) :
    (demoParse fs args a).1.BindPort = a.BindPort := by
  induction args generalizing a with
  | nil => simp [demoParse]
  | cons arg rest ih =>
    simp only [List.map_cons, List.mem_cons, not_or] at h
    simp only [demoParse]
    split
    · split
      · rename_i hname
        exact absurd hname.symm h.1
      · exact ih a h.2
    · rfl

/-- The toy parser fails when an argument names a flag the set does not define. -/
theorem demoParse_unknown (fs : FlagSet) (args : List String) (a : AdapterBase (Option Nat))
    (n : String) (hn : n ∈ args.map demoFlagName) (hu : n ∉ fs.formal) :
    (demoParse fs args a).2 ≠ none := by
  induction args generalizing a with
  | nil => simp at hn
  | cons arg rest ih =>
    simp only [List.map_cons, List.mem_cons] at hn
    simp only [demoParse]
    split
    · rename_i hdef
      have hrest : n ∈ rest.map demoFlagName := by
        rcases hn with h | h
        · exact absurd (h ▸ hdef) hu
        · exact h
      split
      · exact ih _ hrest
      · exact ih _ hrest
    · simp

/-- Reading up to the first `=` gives back a text without `=`. -/
theorem takeWhile_ne_of_not_mem (l r : List Char) (h : '=' ∉ l) :
    (l ++ '=' :: r).takeWhile (fun c => c ≠ '=') = l := by
  induction l with
  | nil => simp
  | cons c t ih =>
    simp only [List.mem_cons, not_or] at h
    have hc : c ≠ '=' := fun hh => h.1 hh.symm
    have ih2 := ih h.2
    simp only [ne_eq, decide_not] at ih2
    simp [List.takeWhile, hc, ih2]

/-- Reading up to the first `=` keeps a text without `=`. -/
theorem takeWhile_ne_self (l : List Char) (h : '=' ∉ l) :
    l.takeWhile (fun c => c ≠ '=') = l := by
  induction l with
  | nil => simp
  | cons c t ih =>
    simp only [List.mem_cons, not_or] at h
    have hc : c ≠ '=' := fun hh => h.1 hh.symm
    have ih2 := ih h.2
    simp only [ne_eq, decide_not] at ih2
    simp only [ne_eq, decide_not, List.takeWhile_cons, hc, decide_False, Bool.not_false,
      if_true, ih2]

/-- Dropping leading dashes keeps a text that does not start with one. -/
theorem dropWhile_dash (l : List Char) (h : l.head? ≠ some '-') :
    l.dropWhile (fun c => c = '-') = l := by
  cases l with
  | nil => simp
  | cons c t =>
    have hc : c ≠ '-' := by
      intro hh
      exact h (by simp [hh])
    simp [List.dropWhile, hc]

/-- The toy parser reads `name` from `--name` and from `--name=value`. -/
theorem demoFlagName_long (arg name : String) (hn : flagNameOK name)
    (h : namesLongFlag arg name) : demoFlagName arg = name := by
  obtain ⟨-, heq, hdash⟩ := hn
  have hd : ∀ r : List Char, ('-' :: '-' :: (name.data ++ r)).dropWhile (fun c => c = '-')
      = (name.data ++ r).dropWhile (fun c => c = '-') := by
    intro r
    simp [List.dropWhile]
  rcases h with h | ⟨value, h⟩
  · subst h
    have : ("--" ++ name).data = '-' :: '-' :: (name.data ++ []) := by
      simp [String.data_append]
    simp only [demoFlagName, this, hd]
    rw [List.append_nil, dropWhile_dash _ hdash, takeWhile_ne_self _ heq]
  · subst h
    have : ("--" ++ name ++ "=" ++ value).data = '-' :: '-' :: (name.data ++ '=' :: value.data) := by
      simp [String.data_append]
    simp only [demoFlagName, this, hd]
    have h2 : (name.data ++ '=' :: value.data).head? ≠ some '-' := by
      cases hnd : name.data with
      | nil => simp
      | cons c t =>
        rw [hnd] at hdash
        simpa using hdash
    rw [dropWhile_dash _ h2, takeWhile_ne_of_not_mem _ _ heq]

/-- The toy parser reads `v` from a verbosity argument. -/
theorem demoFlagName_verbosity (arg : String) (h : isVerbosityArg arg) :
    demoFlagName arg = "v" := by
  obtain ⟨level, -, h | h⟩ := h
  · subst h
    have : ("-v=" ++ toString level).data = '-' :: 'v' :: '=' :: (toString level).data := by
      simp [String.data_append]
    simp only [demoFlagName, this]
    simp [List.dropWhile, List.takeWhile]
  · subst h
    have : ("--v=" ++ toString level).data = '-' :: '-' :: 'v' :: '=' :: (toString level).data := by
      simp [String.data_append]
    simp only [demoFlagName, this]
    simp [List.dropWhile, List.takeWhile]

/-- The flag name the toy parser reads from an argument occurs in it. -/
theorem demoFlagName_occurs (arg : String) : occursIn (demoFlagName arg) arg := by
  refine ⟨arg.data.takeWhile (fun c => c = '-'),
    (arg.data.dropWhile (fun c => c = '-')).dropWhile (fun c => c ≠ '='), ?_⟩
  simp only [demoFlagName]
  rw [List.append_assoc, List.takeWhile_append_dropWhile, List.takeWhile_append_dropWhile]

/-- The toy parser returns nil when every argument sets the verbosity and the
set defines `v`. -/
theorem demoParse_verbosity (fs : FlagSet) (args : List String)
    (a : AdapterBase (Option Nat)) (hv : "v" ∈ fs.formal)
    (h : ∀ arg ∈ args, isVerbosityArg arg) : (demoParse fs args a).2 = none := by
  induction args generalizing a with
  | nil => rfl
  | cons arg rest ih =>
    have hname := demoFlagName_verbosity arg (h arg (List.mem_cons_self _ _))
    have hrest : ∀ x ∈ rest, isVerbosityArg x := fun x hx => h x (List.mem_cons_of_mem _ hx)
    simp only [demoParse, hname, hv, if_true]
    rw [if_neg (by decide)]
    exact ih a hrest

/-- Dropping up to the first `=` of `l ++ '=' :: r` leaves `'=' :: r` when `l`
has no `=`. -/
theorem dropWhile_ne_of_not_mem (l r : List Char) (h : '=' ∉ l) :
    (l ++ '=' :: r).dropWhile (fun c => c ≠ '=') = '=' :: r := by
  induction l with
  | nil => simp
  | cons c t ih =>
    simp only [List.mem_cons, not_or] at h
    have hc : c ≠ '=' := fun hh => h.1 hh.symm
    have ih2 := ih h.2
    simp only [ne_eq, decide_not] at ih2
    simp only [ne_eq, decide_not, List.cons_append, List.dropWhile_cons, hc, decide_False,
      Bool.not_false, if_true, ih2]

/-- The toy parser reads `value` from `--name=value`. -/
theorem demoFlagValue_long (name value : String) (h : '=' ∉ name.data) :
    demoFlagValue (longArg name value) = value.data := by
  have hd : (longArg name value).data = ('-' :: '-' :: name.data) ++ '=' :: value.data := by
    simp [longArg, String.data_append]
  have h2 : '=' ∉ ('-' :: '-' :: name.data) := by
    simp only [List.mem_cons, not_or]
    exact ⟨by decide, by decide, h⟩
  simp only [demoFlagValue, hd]
  rw [dropWhile_ne_of_not_mem _ _ h2]
  rfl

/-- The toy parser works through a list of arguments from left to right. -/
theorem demoParse_append (fs : FlagSet) (l1 l2 : List String) (a : AdapterBase (Option Nat)) :
    demoParse fs (l1 ++ l2) a =
      (match (demoParse fs l1 a).2 with
       | none => demoParse fs l2 (demoParse fs l1 a).1
       | some e => ((demoParse fs l1 a).1, some e)) := by
  induction l1 generalizing a with
  | nil => simp [demoParse]
  | cons arg rest ih =>
    simp only [List.cons_append, demoParse]
    split
    · split
      · exact ih _
      · exact ih _
    · rfl

/-- The toy parser never removes the server options of the adapter. -/
theorem demoParse_port_some (fs : FlagSet) (args : List String) (a : AdapterBase (Option Nat))
    (h : a.BindPort ≠ none) : (demoParse fs args a).1.BindPort ≠ none := by
  induction args generalizing a with
  | nil => simpa [demoParse] using h
  | cons arg rest ih =>
    simp only [demoParse]
    split
    · split
      · apply ih
        cases hc : a.CustomMetricsAdapterServerOptions with
        | none => simp [AdapterBase.BindPort, hc] at h
        | some o => simp [AdapterBase.BindPort, hc]
      · exact ih a h
    · exact h

/-- When the toy parser accepts arguments that end with `--secure-port=n`, the
port it leaves is `n`. -/
theorem demoParse_secure_last (fs : FlagSet) (pre : List String) (value : String) (n : Int)
    (a : AdapterBase (Option Nat)) (hn : parseDecimal value = some n)
    (ha : a.BindPort ≠ none)
    (hok : (demoParse fs (pre ++ [longArg "secure-port" value]) a).2 = none) :
    (demoParse fs (pre ++ [longArg "secure-port" value]) a).1.BindPort = some n := by
  have hname : demoFlagName (longArg "secure-port" value) = "secure-port" :=
    demoFlagName_long _ _ ⟨by decide, by decide, by decide⟩ (Or.inr ⟨value, rfl⟩)
  have hval : demoFlagValue (longArg "secure-port" value) = value.data :=
    demoFlagValue_long _ _ (by decide)
  have hnum : demoNumber value.data = n := by
    unfold parseDecimal at hn
    split at hn
    · simpa [demoNumber] using hn
    · cases hn
  rw [demoParse_append] at hok ⊢
  cases hq : (demoParse fs pre a).2 with
  | some e => simp [hq] at hok
  | none =>
    simp only [hq] at hok ⊢
    have hb := demoParse_port_some fs pre a ha
    simp only [demoParse, hname, hval, hnum] at hok ⊢
    split
    · cases hc : (demoParse fs pre a).1.CustomMetricsAdapterServerOptions with
      | none => simp [AdapterBase.BindPort, hc] at hb
      | some o => simp [AdapterBase.BindPort, hc]
    · rename_i hnot
      simp [hnot] at hok

/-- The toy environment satisfies `StampContract`. -/
theorem demoEnv_stamp : StampContract demoEnv := by
  refine ⟨?_, ?_, ?_⟩
  · intro a
    cases h : a.FlagSet <;>
      simp [demoEnv, h, AdapterBase.serverOpenAPIConfig]
  · intro fs args a
    exact demoParse_keeps fs args a
  · intro p a
    simp [demoEnv, AdapterBase.serverOpenAPIConfig]

/-- The toy environment satisfies `PortContract`. -/
theorem demoEnv_port : PortContract demoEnv := by
  refine ⟨?_, ?_, ?_, ?_, ?_⟩
  · intro a
    cases h : a.FlagSet <;> simp [demoEnv, h, AdapterBase.BindPort]
  · intro a p
    simp [demoEnv, AdapterBase.BindPort]
  · intro fs args a h
    exact demoParse_port fs args a h
  · intro fs args n hn
    obtain ⟨arg, harg, hname⟩ := List.mem_map.1 hn
    exact ⟨arg, harg, hname ▸ demoFlagName_occurs arg⟩
  · intro fs pre value n a _ hn ha hok
    exact demoParse_secure_last fs pre value n a hn ha hok

/-- The toy environment satisfies `FlagContract`. -/
theorem demoEnv_flag : FlagContract demoEnv := by
  refine ⟨?_, ?_, ?_, ?_, ?_, ?_⟩
  · intro fs flagset
    refine ⟨rfl, rfl, ?_⟩
    intro n
    simp only [demoEnv, List.mem_append, List.mem_filter, decide_eq_true_eq]
    constructor
    · rintro (h | h)
      · exact Or.inl h
      · exact Or.inr h.1
    · rintro (h | h)
      · exact Or.inl h
      · by_cases hn : n ∈ fs.formal
        · exact Or.inl hn
        · exact Or.inr ⟨h, hn⟩
  · intro a fs h
    simp [demoEnv, h]
  · intro fs args a n _ hn hu
    exact demoParse_unknown fs args a n hn hu
  · intro flagset
    simp [demoEnv]
  · intro fs pre arg post name _ hok hlong
    exact List.mem_map.2 ⟨arg, by simp, demoFlagName_long arg name hok hlong⟩
  · intro fs args a _ hv hall
    exact demoParse_verbosity fs args a hv hall

/-- C1: `NewAdapter` calls `Parse` once, on the flag set that `Flags()` returned
and with `options.Args`; it returns a non-nil adapter with a nil error exactly
when that call returned nil and the provider is not nil, and in every other
case it returns no adapter and an error. -/
theorem NewAdapter_validates_options (env : Env P E X) (options : Options P) :
    ∃ st0 fs st res, Call.Flags st0 ∈ (NewAdapter env options).1 ∧
      (st, fs) = env.Flags st0 ∧
      parseCalls (NewAdapter env options).1 = [(fs, options.Args, st, res)] ∧
      res = (env.Parse fs options.Args st).2 ∧
      (((NewAdapter env options).2.adapter.isSome = true ∧
          (NewAdapter env options).2.err = none) ↔
        (res = none ∧ options.ExternalMetricsProvider ≠ none)) ∧
      (((NewAdapter env options).2.adapter.isSome = true ∧
          (NewAdapter env options).2.err = none) ∨
        ((NewAdapter env options).2.adapter = none ∧
          (NewAdapter env options).2.err.isSome = true)) := by
  obtain ⟨a, pre, -, hpre, hrun⟩ := NewAdapter_run env options
  refine ⟨a, (env.Flags a).2, (env.Flags a).1,
    (env.Parse (env.Flags a).2 options.Args (env.Flags a).1).2, ?_, rfl, ?_, rfl, ?_⟩
  · rw [hrun]
    cases hq : (env.Parse (env.Flags a).2 options.Args (env.Flags a).1).2 <;>
      cases hp : options.ExternalMetricsProvider <;>
      simp [hpre]
  · rw [hrun]
    cases hq : (env.Parse (env.Flags a).2 options.Args (env.Flags a).1).2 <;>
      cases hp : options.ExternalMetricsProvider <;>
      simp [hpre, parseCalls, hq]
  · rw [hrun]
    cases hq : (env.Parse (env.Flags a).2 options.Args (env.Flags a).1).2 <;>
      cases hp : options.ExternalMetricsProvider <;>
      simp

/-- C2: when the arguments parse and the provider is nil, `NewAdapter` returns no
adapter and the error whose message is "external metrics provider must be
configured". -/
theorem NewAdapter_nil_provider (env : Env P E X) (options : Options P)
    (hparse : parseResults (NewAdapter env options).1 = [none])
    (hnil : options.ExternalMetricsProvider = none) :
    (NewAdapter env options).2.adapter = none ∧
      ∃ err, (NewAdapter env options).2.err = some err ∧
        err.Error env = "external metrics provider must be configured" ∧
        err.Unwrap = none := by
  obtain ⟨a, pre, -, hpre, hrun⟩ := NewAdapter_run env options
  rw [hrun] at hparse ⊢
  cases hq : (env.Parse (env.Flags a).2 options.Args (env.Flags a).1).2 with
  | none =>
    simp [hnil, GoError.Error, GoError.Unwrap]
  | some e =>
    simp [hq, hpre, parseResults, parseCalls] at hparse

/-- Witness for C2 in the toy environment: no arguments, no provider. -/
theorem NewAdapter_nil_provider_witness :
    (NewAdapter demoEnv { Args := [], ExternalMetricsProvider := none }).2.adapter = none ∧
      ∃ err, (NewAdapter demoEnv { Args := [], ExternalMetricsProvider := none }).2.err
          = some err ∧
        err.Error demoEnv = "external metrics provider must be configured" ∧
        err.Unwrap = none :=
  NewAdapter_nil_provider demoEnv { Args := [], ExternalMetricsProvider := none } rfl rfl

/-- C3: `WithExternalMetrics` is called only in a run where `Parse` returned nil
and the provider is not nil, and then with exactly the provider of the options;
in a successful run it is the last call, made after `Parse` returned nil, and
the adapter returned is the adapter that this call leaves. -/
theorem NewAdapter_binds_given_provider (env : Env P E X) (options : Options P) :
    boundProviders (NewAdapter env options).1 =
        (match parseResults (NewAdapter env options).1, options.ExternalMetricsProvider with
         | [none], some p => [p]
         | _, _ => []) ∧
      ∀ ad, (NewAdapter env options).2.adapter = some ad →
        ∃ p st pre, options.ExternalMetricsProvider = some p ∧
          (NewAdapter env options).1 = pre ++ [Call.WithExternalMetrics st p] ∧
          boundProviders pre = [] ∧ parseResults pre = [none] ∧
          ad.toAdapterBase = env.WithExternalMetrics st p := by
  obtain ⟨a, pre, -, hpre, hrun⟩ := NewAdapter_run env options
  rw [hrun]
  cases hq : (env.Parse (env.Flags a).2 options.Args (env.Flags a).1).2 with
  | some e =>
    simp [hq, hpre, parseResults, parseCalls, boundProviders]
  | none =>
    cases hp : options.ExternalMetricsProvider with
    | none => simp [hq, hpre, parseResults, parseCalls, boundProviders]
    | some p =>
      refine ⟨by simp [hq, hpre, parseResults, parseCalls, boundProviders], ?_⟩
      intro ad had
      refine ⟨p, _, pre, rfl, rfl, ?_, ?_, ?_⟩
      · simp [hpre, boundProviders]
      · simp [hq, hpre, parseResults, parseCalls]
      · simp only [Option.some.injEq] at had
        rw [← had]

/-- Witness for C3 in the toy environment: the provider `7` is the one bound. -/
theorem NewAdapter_binds_given_provider_witness :
    ∃ p st pre, (some 7 : Option Nat) = some p ∧
      (NewAdapter demoEnv { Args := ["--v=2"], ExternalMetricsProvider := some 7 }).1
        = pre ++ [Call.WithExternalMetrics st p] ∧
      boundProviders pre = [] ∧ parseResults pre = [none] ∧
      demoEnv.WithExternalMetrics
        (demoEnv.Parse (demoEnv.Flags (configured demoEnv)).2 ["--v=2"]
          (demoEnv.Flags (configured demoEnv)).1).1 7 = demoEnv.WithExternalMetrics st p :=
  (NewAdapter_binds_given_provider demoEnv
    { Args := ["--v=2"], ExternalMetricsProvider := some 7 }).2
    { toAdapterBase := (demoEnv.WithExternalMetrics
        (demoEnv.Parse (demoEnv.Flags (configured demoEnv)).2 ["--v=2"]
          (demoEnv.Flags (configured demoEnv)).1).1 7) } rfl

/-- C7: when the arguments fail to parse with the error `e`, `NewAdapter` returns
the same pair whatever the provider is (nil or not): no adapter, and the error
that wraps the error of `initFlags` (which wraps `e`), with the message
"initiating flags: " followed by the message of that error; this message is
never "external metrics provider must be configured". -/
theorem NewAdapter_flag_error_first (env : Env P E X) (options : Options P) (e : E)
    (hfail : parseResults (NewAdapter env options).1 = [some e]) (provider : Option P) :
    (NewAdapter env { Args := options.Args, ExternalMetricsProvider := provider }).2 =
        (NewAdapter env options).2 ∧
      (NewAdapter env options).2.adapter = none ∧
      ∃ err inner, (NewAdapter env options).2.err = some err ∧ err.Unwrap = some inner ∧
        inner.Unwrap = some (GoError.lib e) ∧
        err.Error env = "initiating flags: " ++ inner.Error env ∧
        err.Error env ≠ "external metrics provider must be configured" := by
  obtain ⟨a, pre, ha, hpre, hrun⟩ := NewAdapter_run env options
  obtain ⟨a2, pre2, ha2, -, hrun2⟩ :=
    NewAdapter_run env { Args := options.Args, ExternalMetricsProvider := provider }
  subst ha
  subst ha2
  rw [hrun] at hfail ⊢
  rw [hrun2]
  cases hq : (env.Parse (env.Flags (configured env)).2 options.Args
      (env.Flags (configured env)).1).2 with
  | none =>
    cases hp : options.ExternalMetricsProvider <;>
      simp [hq, hp, hpre, parseResults, parseCalls] at hfail
  | some e2 =>
    have he : e2 = e := by
      simpa [hq, hpre, parseResults, parseCalls] using hfail
    subst he
    refine ⟨by simp [hq], rfl, _, _, rfl, rfl, rfl, rfl, ?_⟩
    intro h
    have h2 := congrArg String.data h
    simp [GoError.Error] at h2

/-- Witness for C7 in the toy environment: an undefined flag, with a provider. -/
theorem NewAdapter_flag_error_first_witness :
    (NewAdapter demoEnv { Args := ["--nope=1"], ExternalMetricsProvider := none }).2 =
        (NewAdapter demoEnv { Args := ["--nope=1"], ExternalMetricsProvider := some 7 }).2 ∧
      (NewAdapter demoEnv
        { Args := ["--nope=1"], ExternalMetricsProvider := some 7 }).2.adapter = none ∧
      ∃ err inner,
        (NewAdapter demoEnv
          { Args := ["--nope=1"], ExternalMetricsProvider := some 7 }).2.err = some err ∧
        err.Unwrap = some inner ∧
        inner.Unwrap = some (GoError.lib "unknown flag: --nope") ∧
        err.Error demoEnv = "initiating flags: " ++ inner.Error demoEnv ∧
        err.Error demoEnv ≠ "external metrics provider must be configured" :=
  NewAdapter_flag_error_first demoEnv
    { Args := ["--nope=1"], ExternalMetricsProvider := some 7 } "unknown flag: --nope" rfl none

/-- C8: when `Parse` fails on the arguments with the error `e`, the error that
`NewAdapter` returns has the message "initiating flags: parsing flags ", then
the quoted comma-join of the arguments, then ": " and the message of `e`; and
unwrapping it twice gives `e`. -/
theorem NewAdapter_flag_error_message (env : Env P E X) (options : Options P) (e : E)
    (hfail : parseResults (NewAdapter env options).1 = [some e]) :
    ∃ err mid, (NewAdapter env options).2.err = some err ∧
      err.Unwrap = some mid ∧ mid.Unwrap = some (GoError.lib e) ∧
      (GoError.lib e).Error env = env.errorMessage e ∧
      err.Error env =
        "initiating flags: parsing flags " ++ env.Quote (stringsJoin options.Args ",") ++
          ": " ++ env.errorMessage e := by
  obtain ⟨a, pre, -, hpre, hrun⟩ := NewAdapter_run env options
  rw [hrun] at hfail ⊢
  cases hq : (env.Parse (env.Flags a).2 options.Args (env.Flags a).1).2 with
  | none =>
    cases hp : options.ExternalMetricsProvider <;>
      simp [hq, hp, hpre, parseResults, parseCalls] at hfail
  | some e2 =>
    have he : e2 = e := by
      simpa [hq, hpre, parseResults, parseCalls] using hfail
    subst he
    refine ⟨_, _, rfl, rfl, rfl, rfl, ?_⟩
    simp only [GoError.Error, String.append_assoc]
    rfl

/-- Witness for C8 in the toy environment: two arguments, the second undefined. -/
theorem NewAdapter_flag_error_message_witness :
    ∃ err mid,
      (NewAdapter demoEnv
        { Args := ["--v=2", "--nope=1"], ExternalMetricsProvider := some 7 }).2.err = some err ∧
      err.Unwrap = some mid ∧ mid.Unwrap = some (GoError.lib "unknown flag: --nope") ∧
      (GoError.lib "unknown flag: --nope").Error demoEnv = "unknown flag: --nope" ∧
      err.Error demoEnv =
        "initiating flags: parsing flags " ++ "\"--v=2,--nope=1\"" ++
          ": " ++ "unknown flag: --nope" :=
  NewAdapter_flag_error_message demoEnv
    { Args := ["--v=2", "--nope=1"], ExternalMetricsProvider := some 7 }
    "unknown flag: --nope" rfl

/-- C4: `DefaultSecurePort` is 6443 and is in `SecureServing.BindPort` when
`Parse` is called; when the arguments parse and the provider is not nil, the
port of the adapter returned is the port that `Parse` left; it is 6443 when
the arguments do not name the flag `secure-port`, in particular when the text
`secure-port` occurs in no argument and when there is no argument at all; and
it is `n` when the arguments carry their values and end with
`--secure-port=n`. -/
theorem NewAdapter_default_secure_port (env : Env P E X) (hlib : PortContract env)
    (options : Options P) (p : P)
    (hparse : parseResults (NewAdapter env options).1 = [none])
    (hp : options.ExternalMetricsProvider = some p) :
    DefaultSecurePort = 6443 ∧
      ∃ ad fs st, (NewAdapter env options).2.adapter = some ad ∧
        parseCalls (NewAdapter env options).1 = [(fs, options.Args, st, none)] ∧
        st.BindPort = some DefaultSecurePort ∧
        ad.BindPort = (env.Parse fs options.Args st).1.BindPort ∧
        ("secure-port" ∉ env.flagsIn fs options.Args → ad.BindPort = some 6443) ∧
        ((∀ arg ∈ options.Args, ¬ occursIn "secure-port" arg) → ad.BindPort = some 6443) ∧
        (options.Args = [] → ad.BindPort = some 6443) ∧
        (∀ pre value n, options.Args = pre ++ [longArg "secure-port" value] →
          (∀ x ∈ pre, isSelfContained x) → parseDecimal value = some n →
          ad.BindPort = some n) := by
  obtain ⟨hflags, hwith, hpars, hocc, hset⟩ := hlib
  obtain ⟨a, pre, ha, hpre, hrun⟩ := NewAdapter_run env options
  rw [hrun] at hparse ⊢
  have hst : (env.Flags a).1.BindPort = some DefaultSecurePort := by
    rw [hflags a, ha]
    rfl
  cases hq : (env.Parse (env.Flags a).2 options.Args (env.Flags a).1).2 with
  | some e =>
    simp [hq, hpre, parseResults, parseCalls] at hparse
  | none =>
    refine ⟨rfl, ?_⟩
    simp only [hp]
    have hunset : "secure-port" ∉ env.flagsIn (env.Flags a).2 options.Args →
        (env.WithExternalMetrics
          (env.Parse (env.Flags a).2 options.Args (env.Flags a).1).1 p).BindPort =
          some 6443 := by
      intro hunset
      rw [hwith, hpars _ _ _ hunset, hst]
      rfl
    refine ⟨_, (env.Flags a).2, (env.Flags a).1, rfl, ?_, hst, hwith _ _, hunset, ?_, ?_, ?_⟩
    · simp [hpre, hq, parseCalls]
    · intro hno
      apply hunset
      intro hin
      obtain ⟨arg, harg, hocc2⟩ := hocc _ _ _ hin
      exact hno arg harg hocc2
    · intro hnil
      apply hunset
      intro hin
      obtain ⟨arg, harg, -⟩ := hocc _ _ _ hin
      rw [hnil] at harg
      simp at harg
    · intro pre2 value n hargs hpre2 hn
      show (env.WithExternalMetrics _ p).BindPort = some n
      rw [hwith]
      have hne : (env.Flags a).1.BindPort ≠ none := by
        rw [hst]
        simp
      rw [hargs] at hq ⊢
      exact hset _ pre2 value n _ hpre2 hn hne hq

/-- Witness for C4 in the toy environment: with no arguments the port of the
adapter returned is 6443, with `--v=2` as well, and with `--secure-port=8443`
it is 8443. -/
theorem NewAdapter_default_secure_port_witness :
    (∃ ad, (NewAdapter demoEnv
        { Args := [], ExternalMetricsProvider := some 7 }).2.adapter = some ad ∧
      ad.BindPort = some 6443) ∧
    (∃ ad, (NewAdapter demoEnv
        { Args := ["--v=2"], ExternalMetricsProvider := some 7 }).2.adapter = some ad ∧
      ad.BindPort = some 6443) ∧
    (∃ ad, (NewAdapter demoEnv
        { Args := ["--secure-port=8443"], ExternalMetricsProvider := some 7 }).2.adapter
          = some ad ∧
      ad.BindPort = some 8443) := by
  refine ⟨?_, ?_, ?_⟩
  · obtain ⟨-, ad, fs, st, had, -, -, -, -, -, hempty, -⟩ :=
      NewAdapter_default_secure_port demoEnv demoEnv_port
        { Args := [], ExternalMetricsProvider := some 7 } 7 rfl rfl
    exact ⟨ad, had, hempty rfl⟩
  · obtain ⟨-, ad, fs, st, had, -, -, -, -, hno, -, -⟩ :=
      NewAdapter_default_secure_port demoEnv demoEnv_port
        { Args := ["--v=2"], ExternalMetricsProvider := some 7 } 7 rfl rfl
    refine ⟨ad, had, hno ?_⟩
    intro arg harg
    simp only [List.mem_singleton] at harg
    subst harg
    rintro ⟨pre, post, h⟩
    have hlen := congrArg List.length h
    simp at hlen
    omega
  · obtain ⟨-, ad, fs, st, had, -, -, -, -, -, -, hset⟩ :=
      NewAdapter_default_secure_port demoEnv demoEnv_port
        { Args := ["--secure-port=8443"], ExternalMetricsProvider := some 7 } 7 rfl rfl
    exact ⟨ad, had, hset [] "8443" 8443 rfl (by simp) rfl⟩

/-- C5: the adapter that `NewAdapter` returns is named `Name`, the title of its
OpenAPI configuration is `Name`, the version is the package variable `version`,
and the server options hold the same configuration. -/
theorem NewAdapter_stamps_openapi (env : Env P E X) (hlib : StampContract env)
    (options : Options P) (ad : adapter X)
    (hok : (NewAdapter env options).2.adapter = some ad) :
    ad.Name = Name ∧ Name = "newrelic-k8s-metrics-adapter" ∧
      Name ≠ "custom-metrics-adapter" ∧
      ad.OpenAPIConfig.map (fun c => c.Info.Title) = some Name ∧
      ad.OpenAPIConfig.map (fun c => c.Info.Version) = some env.version ∧
      version = "dev" ∧
      ad.toAdapterBase.serverOpenAPIConfig = ad.OpenAPIConfig := by
  obtain ⟨hflags, hpars, hwith⟩ := hlib
  obtain ⟨a, pre, ha, hpre, hrun⟩ := NewAdapter_run env options
  rw [hrun] at hok
  cases hq : (env.Parse (env.Flags a).2 options.Args (env.Flags a).1).2 with
  | some e => simp [hq] at hok
  | none =>
    cases hp : options.ExternalMetricsProvider with
    | none => simp [hq, hp] at hok
    | some p =>
      simp only [hq, hp, Option.some.injEq] at hok
      subst hok
      obtain ⟨w1, w2, w3⟩ := hwith p (env.Parse (env.Flags a).2 options.Args (env.Flags a).1).1
      obtain ⟨p1, p2, p3⟩ := hpars (env.Flags a).2 options.Args (env.Flags a).1
      obtain ⟨f1, f2, f3⟩ := hflags a
      simp only at w1 w2 w3 p1 p2 p3 f1 f2 f3
      have hn : (env.WithExternalMetrics
          (env.Parse (env.Flags a).2 options.Args (env.Flags a).1).1 p).Name = Name := by
        rw [w1, p1, f1, ha]
        rfl
      have hc : (env.WithExternalMetrics
          (env.Parse (env.Flags a).2 options.Args (env.Flags a).1).1 p).OpenAPIConfig =
          (configured env).OpenAPIConfig := by
        rw [w2, p2, f2, ha]
      have hs : (env.WithExternalMetrics
          (env.Parse (env.Flags a).2 options.Args (env.Flags a).1).1 p).serverOpenAPIConfig =
          (configured env).serverOpenAPIConfig := by
        rw [w3, p3, f3, ha]
      refine ⟨hn, rfl, by decide, ?_, ?_, rfl, ?_⟩
      · show Option.map _ (env.WithExternalMetrics _ p).OpenAPIConfig = _
        rw [hc]
        rfl
      · show Option.map _ (env.WithExternalMetrics _ p).OpenAPIConfig = _
        rw [hc]
        rfl
      · show (env.WithExternalMetrics _ p).serverOpenAPIConfig =
          (env.WithExternalMetrics _ p).OpenAPIConfig
        rw [hs, hc]
        rfl

/-- Witness for C5 in the toy environment. -/
theorem NewAdapter_stamps_openapi_witness :
    (demoEnv.WithExternalMetrics
        (demoEnv.Parse (demoEnv.Flags (configured demoEnv)).2 ["--v=2"]
          (demoEnv.Flags (configured demoEnv)).1).1 7).OpenAPIConfig.map
        (fun c => c.Info.Title) = some "newrelic-k8s-metrics-adapter" :=
  (NewAdapter_stamps_openapi demoEnv demoEnv_stamp
    { Args := ["--v=2"], ExternalMetricsProvider := some 7 }
    { toAdapterBase := (demoEnv.WithExternalMetrics
        (demoEnv.Parse (demoEnv.Flags (configured demoEnv)).2 ["--v=2"]
          (demoEnv.Flags (configured demoEnv)).1).1 7) } rfl).2.2.2.1

/-- C6: `initFlags` first creates a flag set with `NewFlagSet(Name, ContinueOnError)`,
which defines no flag, whatever set the adapter had; the set handed to `Parse`
is named `Name`, has `ContinueOnError`, and defines exactly the flags that klog
registers (the flag `v` among them) and the flags that `Flags()` installs;
`initFlags` returns nil exactly when `Parse` does; arguments naming a flag of
neither group, such as `--name` or `--name=value` after arguments that carry
their values, make it return an error (a value wrapping the error of `Parse`);
arguments that only set the verbosity (`-v=n`, `--v=n`) make it return nil, and
`NewAdapter` then returns an adapter and no error when the provider is not nil. -/
theorem initFlags_flag_set (env : Env P E X) (hlib : FlagContract env)
    (a : adapter X) (args : List String) :
    ∃ st0 fs st res,
      (initFlags env a args).1 =
        [Call.NewFlagSet Name ErrorHandling.ContinueOnError,
         Call.klogInitFlags [],
         Call.AddGoFlagSet (NewFlagSet Name ErrorHandling.ContinueOnError)
           (env.klogInitFlags []),
         Call.Flags st0,
         Call.Parse fs args st res] ∧
      (NewFlagSet Name ErrorHandling.ContinueOnError).formal = [] ∧
      st0.FlagSet = some (env.AddGoFlagSet (NewFlagSet Name ErrorHandling.ContinueOnError)
        (env.klogInitFlags [])) ∧
      (st, fs) = env.Flags st0 ∧ res = (env.Parse fs args st).2 ∧
      fs.name = Name ∧ fs.errorHandling = ErrorHandling.ContinueOnError ∧
      (∀ n, n ∈ fs.formal ↔ n ∈ env.klogInitFlags [] ∨ n ∈ env.serverFlags) ∧
      ((initFlags env a args).2.2 = none ↔ res = none) ∧
      (∀ n, n ∈ env.flagsIn fs args → n ∉ env.klogInitFlags [] → n ∉ env.serverFlags →
        ∃ err e, (initFlags env a args).2.2 = some err ∧ res = some e ∧
          err.Unwrap = some (GoError.lib e)) ∧
      "v" ∈ env.klogInitFlags [] ∧ "v" ∈ fs.formal ∧
      (∀ pre arg post name, args = pre ++ arg :: post → (∀ x ∈ pre, isSelfContained x) →
        flagNameOK name → namesLongFlag arg name →
        name ∉ env.klogInitFlags [] → name ∉ env.serverFlags →
        ∃ err e, (initFlags env a args).2.2 = some err ∧ res = some e ∧
          err.Unwrap = some (GoError.lib e)) ∧
      ((∀ arg ∈ args, isVerbosityArg arg) → res = none ∧ (initFlags env a args).2.2 = none) ∧
      (∀ options : Options P, (∀ arg ∈ options.Args, isVerbosityArg arg) →
        options.ExternalMetricsProvider ≠ none →
        (NewAdapter env options).2.err = none ∧
          (NewAdapter env options).2.adapter.isSome = true) := by
  obtain ⟨hadd, hflags, hunk, hklogv, hnames, haccept⟩ := hlib
  have h0 : ({ a.toAdapterBase with
      FlagSet := some (env.AddGoFlagSet (NewFlagSet Name ErrorHandling.ContinueOnError)
        (env.klogInitFlags [])) } : AdapterBase X).FlagSet =
      some (env.AddGoFlagSet (NewFlagSet Name ErrorHandling.ContinueOnError)
        (env.klogInitFlags [])) := rfl
  obtain ⟨hn, he, hm⟩ := hflags _ _ h0
  obtain ⟨hn1, he1, hm1⟩ := hadd (NewFlagSet Name ErrorHandling.ContinueOnError)
    (env.klogInitFlags [])
  have hce : (env.Flags { a.toAdapterBase with
      FlagSet := some (env.AddGoFlagSet (NewFlagSet Name ErrorHandling.ContinueOnError)
        (env.klogInitFlags [])) }).2.errorHandling = ErrorHandling.ContinueOnError := by
    rw [he, he1]
    rfl
  have hmem : ∀ n, n ∈ (env.Flags { a.toAdapterBase with
      FlagSet := some (env.AddGoFlagSet (NewFlagSet Name ErrorHandling.ContinueOnError)
        (env.klogInitFlags [])) }).2.formal ↔ n ∈ env.klogInitFlags [] ∨ n ∈ env.serverFlags := by
    intro n
    rw [hm n, hm1 n]
    simp [NewFlagSet]
  have hres : (initFlags env a args).2.2 = none ↔
      (env.Parse (env.Flags { a.toAdapterBase with
        FlagSet := some (env.AddGoFlagSet (NewFlagSet Name ErrorHandling.ContinueOnError)
          (env.klogInitFlags [])) }).2 args (env.Flags { a.toAdapterBase with
        FlagSet := some (env.AddGoFlagSet (NewFlagSet Name ErrorHandling.ContinueOnError)
          (env.klogInitFlags [])) }).1).2 = none := by
    simp only [initFlags]
    split
    · rename_i e hq
      simp [hq]
    · rename_i hq
      simp [hq]
  have hunknown : ∀ n, n ∈ env.flagsIn (env.Flags { a.toAdapterBase with
        FlagSet := some (env.AddGoFlagSet (NewFlagSet Name ErrorHandling.ContinueOnError)
          (env.klogInitFlags [])) }).2 args → n ∉ env.klogInitFlags [] → n ∉ env.serverFlags →
      ∃ err e, (initFlags env a args).2.2 = some err ∧
        (env.Parse (env.Flags { a.toAdapterBase with
          FlagSet := some (env.AddGoFlagSet (NewFlagSet Name ErrorHandling.ContinueOnError)
            (env.klogInitFlags [])) }).2 args (env.Flags { a.toAdapterBase with
          FlagSet := some (env.AddGoFlagSet (NewFlagSet Name ErrorHandling.ContinueOnError)
            (env.klogInitFlags [])) }).1).2 = some e ∧
        err.Unwrap = some (GoError.lib e) := by
    intro n hin hk hs
    have hundef : n ∉ (env.Flags { a.toAdapterBase with
        FlagSet := some (env.AddGoFlagSet (NewFlagSet Name ErrorHandling.ContinueOnError)
          (env.klogInitFlags [])) }).2.formal := by
      rw [hmem n]
      simp [hk, hs]
    have hfail := hunk _ args (env.Flags { a.toAdapterBase with
        FlagSet := some (env.AddGoFlagSet (NewFlagSet Name ErrorHandling.ContinueOnError)
          (env.klogInitFlags [])) }).1 n hce hin hundef
    simp only [initFlags]
    split
    · rename_i e hq
      exact ⟨_, e, rfl, hq, rfl⟩
    · rename_i hq
      exact absurd hq hfail
  have hv : "v" ∈ (env.Flags { a.toAdapterBase with
      FlagSet := some (env.AddGoFlagSet (NewFlagSet Name ErrorHandling.ContinueOnError)
        (env.klogInitFlags [])) }).2.formal := (hmem "v").2 (Or.inl (hklogv []))
  refine ⟨{ a.toAdapterBase with
      FlagSet := some (env.AddGoFlagSet (NewFlagSet Name ErrorHandling.ContinueOnError)
        (env.klogInitFlags [])) }, _, _, _, ?_, rfl, rfl, rfl, rfl, ?_, hce, hmem, hres,
      hunknown, hklogv [], hv, ?_, ?_, ?_⟩
  · simp only [initFlags]
    split <;> rfl
  · rw [hn, hn1]
    rfl
  · intro pre arg post name hargs hpre hok hlong hk hs
    apply hunknown name _ hk hs
    rw [hargs]
    exact hnames _ pre arg post name hpre hok hlong
  · intro hall
    have hq := haccept _ args (env.Flags { a.toAdapterBase with
        FlagSet := some (env.AddGoFlagSet (NewFlagSet Name ErrorHandling.ContinueOnError)
          (env.klogInitFlags [])) }).1 hce hv hall
    exact ⟨hq, hres.2 hq⟩
  · intro options hall hprov
    obtain ⟨b, pre, hb, -, hrun⟩ := NewAdapter_run env options
    have hb0 : b.FlagSet = some (env.AddGoFlagSet
        (NewFlagSet Name ErrorHandling.ContinueOnError) (env.klogInitFlags [])) := by
      rw [hb]
      rfl
    obtain ⟨-, hbe, hbm⟩ := hflags _ _ hb0
    have hbce : (env.Flags b).2.errorHandling = ErrorHandling.ContinueOnError := by
      rw [hbe, he1]
      rfl
    have hbv : "v" ∈ (env.Flags b).2.formal := by
      rw [hbm "v", hm1 "v"]
      exact Or.inl (Or.inr (hklogv []))
    have hq := haccept _ options.Args (env.Flags b).1 hbce hbv hall
    rw [hrun]
    cases hp : options.ExternalMetricsProvider with
    | none => exact absurd hp hprov
    | some p => simp [hq]

/-- Witness for C6 in the toy environment: the flag `nope` is defined neither by
klog nor by `Flags()`, and `initFlags` returns an error; with `-v=6` alone
`NewAdapter` returns an adapter and no error. -/
theorem initFlags_flag_set_witness :
    (∃ err, (initFlags demoEnv { toAdapterBase := configured demoEnv }
      ["--v=2", "--nope=1"]).2.2 = some err) ∧
    ((NewAdapter demoEnv { Args := ["-v=6"], ExternalMetricsProvider := some 7 }).2.err = none ∧
      (NewAdapter demoEnv
        { Args := ["-v=6"], ExternalMetricsProvider := some 7 }).2.adapter.isSome = true) := by
  obtain ⟨st0, fs, st, res, -, -, -, -, -, -, -, -, -, -, -, -, hlong, -, hverb⟩ :=
    initFlags_flag_set demoEnv demoEnv_flag { toAdapterBase := configured demoEnv }
      ["--v=2", "--nope=1"]
  constructor
  · obtain ⟨err, -, herr, -, -⟩ := hlong ["--v=2"] "--nope=1" [] "nope" rfl
      (by
        intro x hx
        simp only [List.mem_singleton] at hx
        subst hx
        exact Or.inl ⟨"v", "2", ⟨by decide, by decide, by decide⟩, rfl⟩)
      ⟨by decide, by decide, by decide⟩
      (Or.inr ⟨"1", rfl⟩) (by decide) (by decide)
    exact ⟨err, herr⟩
  · exact hverb { Args := ["-v=6"], ExternalMetricsProvider := some 7 }
      (by
        intro arg harg
        simp only [List.mem_singleton] at harg
        subst harg
        exact ⟨6, by norm_num, Or.inl rfl⟩)
      (by simp)

end NewRelicAdapter
